import Mathlib

set_option maxHeartbeats 1000000

namespace GdriveSync

/-- Errors surfaced by the embedded Go code (`error` values). `canceled` is
`ctx.Err()` after cancellation; `statErr` an `os.Stat` failure; `exitErr` an
`exec.ExitError` carrying the captured stderr; `lookPathErr` the failure of
`exec.LookPath`; `otherErr` any other error; `wrapped` is `fmt.Errorf("...: %w", e)`. -/
inductive GoError where
  | canceled
  | statErr (msg : String)
  | exitErr (stderr : String)
  | lookPathErr
  | otherErr (msg : String)
  | wrapped (msg : String) (e : GoError)
  deriving DecidableEq, Repr

instance exceptDecEq {ε α : Type} [DecidableEq ε] [DecidableEq α] :
    DecidableEq (Except ε α)
  | Except.error e1, Except.error e2 =>
    if h : e1 = e2 then isTrue (by rw [h]) else isFalse (fun hh => by cases hh; exact h rfl)
  | Except.error _, Except.ok _ => isFalse (fun h => by cases h)
  | Except.ok _, Except.error _ => isFalse (fun h => by cases h)
  | Except.ok a1, Except.ok a2 =>
    if h : a1 = a2 then isTrue (by rw [h]) else isFalse (fun hh => by cases hh; exact h rfl)

/-- Environment of one iteration of the polling loop in
`waitForFileSizeToStabilize` (src/unnamed/part_000:148-176): the outcome of the
`os.Stat` call at this poll (the file's size, or an error), and whether the
cancellation signal is set when the iteration reaches its `sleep`. -/
structure PollStep where
  stat : Except GoError Int
  cancelledAtSleep : Bool
  deriving DecidableEq, Repr

/-- Embeds `sleep` (src/unnamed/part_000:139-146): a `select` racing a timer tick
against `ctx.Done()`. The argument records whether the cancellation signal fires
before the tick; if so the select returns `ctx.Err()`. -/
def sleep (cancelled : Bool) : Except GoError Unit :=
  if cancelled then Except.error GoError.canceled else Except.ok ()

/-- Embeds the loop body of `waitForFileSizeToStabilize`
(src/unnamed/part_000:148-176). `s` is the last observed size (initially 0),
`c` the stability counter (initially 0), both Go `int64` variables. Each
`PollStep` drives one iteration: stat the file (error returns it), compare with
`s` (`if c < 10 then c++ else return nil`, differing sizes reset `c` to 0),
record the new size, then `sleep` one interval racing cancellation. `none`
means the supplied trace ended with the loop still polling. -/
def stabilizeLoop : Int → Int → List PollStep → Option (Except GoError Unit)
  | _, _, [] => none
  | s, c, step :: rest =>
    match step.stat with
    | Except.error e => some (Except.error e)
    | Except.ok size =>
      if s = size then
        if c < 10 then
          match sleep step.cancelledAtSleep with
          | Except.error e => some (Except.error e)
          | Except.ok _ => stabilizeLoop size (c + 1) rest
        else
          some (Except.ok ())
      else
        match sleep step.cancelledAtSleep with
        | Except.error e => some (Except.error e)
        | Except.ok _ => stabilizeLoop size 0 rest

/-- Embeds `waitForFileSizeToStabilize` (src/unnamed/part_000:148-176): the loop
starting from `s = 0`, `c = 0` (`var s, c int64`). -/
def waitForFileSizeToStabilize (steps : List PollStep) : Option (Except GoError Unit) :=
  stabilizeLoop 0 0 steps

/-- Embeds `waitForFileWrite` (src/unnamed/part_000:135-137), which delegates
directly to `waitForFileSizeToStabilize` and nothing else. -/
def waitForFileWrite (steps : List PollStep) : Option (Except GoError Unit) :=
  waitForFileSizeToStabilize steps

/-- A poll step observing size 10, with no cancellation. -/
def sample10 : PollStep := ⟨Except.ok 10, false⟩

/-- A poll step observing size 20, with no cancellation. -/
def sample20 : PollStep := ⟨Except.ok 20, false⟩

/-- A poll step observing size 0 (empty file), with no cancellation. -/
def sample0 : PollStep := ⟨Except.ok 0, false⟩

/-- A poll step observing the given size, with no cancellation. -/
def constSample (k : Int) : PollStep := ⟨Except.ok k, false⟩

/-- Outcome of the external `lsof` invocation in `fileIsOpen`
(src/unnamed/part_000:199-217): `cmd.Output()` either succeeds (`err == nil`,
returning the captured stdout), fails with an `*exec.ExitError` (non-zero exit;
stdout and stderr as captured), or fails with some other error (not an
`ExitError`, e.g. the context was cancelled or the process could not start). -/
inductive CmdResult where
  | success (stdout : String)
  | exit (stdout stderr : String)
  | otherFailure (msg : String)
  deriving DecidableEq, Repr

/-- Environment of one `fileIsOpen` call: the result of `exec.LookPath("lsof")`
(the resolved path, or `none` when the utility is absent from the host) and the
outcome of running the command. -/
structure ProbeEnv where
  lookPath : Option String
  run : CmdResult
  deriving DecidableEq, Repr

/-- Embeds `fileIsOpen` (src/unnamed/part_000:199-217). Go returns
`(bool, error)`; callers only read the bool when the error is nil, so the pair
is modelled as `Except`: `Except.ok b` is `(b, nil)` and `Except.error e` is
`(false, e)`. A `LookPath` failure is returned as-is; a successful command means
open (the output is discarded by `_, err = ...Output()`); an `ExitError` with
empty stderr means not open; an `ExitError` with non-empty stderr and any
non-`ExitError` failure are returned as errors. -/
def fileIsOpen (env : ProbeEnv) : Except GoError Bool :=
  match env.lookPath with
  | none => Except.error GoError.lookPathErr
  | some _ =>
    match env.run with
    | CmdResult.success _ => Except.ok true
    | CmdResult.exit _ stderr =>
      if stderr = "" then Except.ok false else Except.error (GoError.exitErr stderr)
    | CmdResult.otherFailure msg => Except.error (GoError.otherErr msg)

/-- Environment of one iteration of the polling loop in `waitForFileToClose`
(src/unnamed/part_000:178-197): the environment of this iteration's
`fileIsOpen` call, and whether the cancellation signal is set when the
iteration reaches its `sleep`. -/
structure ClosePollStep where
  probe : ProbeEnv
  cancelledAtSleep : Bool
  deriving DecidableEq, Repr

/-- Embeds `waitForFileToClose` (src/unnamed/part_000:178-197): poll
`fileIsOpen` each interval; propagate its error, return success once the file
is reported closed, otherwise `sleep` one interval racing cancellation. `none`
means the supplied trace ended with the loop still polling. -/
def waitForFileToClose : List ClosePollStep → Option (Except GoError Unit)
  | [] => none
  | step :: rest =>
    match fileIsOpen step.probe with
    | Except.error e => some (Except.error e)
    | Except.ok false => some (Except.ok ())
    | Except.ok true =>
      match sleep step.cancelledAtSleep with
      | Except.error e => some (Except.error e)
      | Except.ok _ => waitForFileToClose rest

/-- Embeds Go's `filepath.Base`: empty path gives ".", trailing slashes are
removed, everything up to the final slash is dropped, and a path of only
slashes gives "/". -/
def filepathBase (path : String) : String :=
  if path = "" then "."
  else
    let trimmed := path.dropRightWhile (fun c => c = '/')
    if trimmed = "" then "/"
    else (trimmed.splitOn "/").getLastD trimmed

/-- Embeds the `ignoreFiles` map (src/unnamed/part_000:22-24): the set of base
names mapped to true. -/
def ignoreFiles : List String := [".DS_Store"]

/-- Embeds `shouldIgnore` (src/unnamed/part_000:130-133): ignore a path whose
base name is in `ignoreFiles` or starts with a period. -/
def shouldIgnore (f : String) : Bool :=
  let baseFile := filepathBase f
  ignoreFiles.contains baseFile || baseFile.startsWith "."

/-- One outcome of the `select` at the top of the `watch` loop
(src/unnamed/part_000:101-126): the events channel was closed; an event was
received (carrying its path, whether its op has the Write bit, whether the path
still exists on disk at the `os.Stat`, and the value of `u.inProgress` for the
path read under the lock); the errors channel was closed; an error value was
received on the errors channel; or `ctx.Done()` fired. -/
inductive SelectOutcome where
  | eventsClosed
  | event (name : String) (isWrite : Bool) (onDisk : Bool) (inFlight : Bool)
  | errorsClosed
  | errorDelivered (e : GoError)
  | cancelled
  deriving DecidableEq, Repr

/-- Embeds the `watch` loop (src/unnamed/part_000:91-128) over a trace of
select outcomes. `spawned` accumulates the paths for which `go u.upload` is
spawned. Result `none` means the trace ended with the loop still waiting;
`some (r, sp)` means the loop returned the Go error value `r` (`none` is Go's
nil) having spawned tasks for the paths `sp`, in order. Per the source: a
closed events channel returns nil; a received event is dropped (loop continues)
when the path is in flight, the op is not a write, the path is ignored, or the
path no longer exists, and otherwise spawns an upload task; a closed errors
channel executes `return err` where `err` is the channel's zero value, i.e.
returns nil; a received error is logged and the loop continues; `ctx.Done()`
returns `ctx.Err()`. The periodic "Waiting for new files" log lines do not
affect control flow and are elided. -/
def watch (spawned : List String) : List SelectOutcome → Option (Option GoError × List String)
  | [] => none
  | o :: rest =>
    match o with
    | SelectOutcome.eventsClosed => some (none, spawned)
    | SelectOutcome.event name isWrite onDisk inFlight =>
      if inFlight || !isWrite || shouldIgnore name then watch spawned rest
      else if !onDisk then watch spawned rest
      else watch (spawned ++ [name]) rest
    | SelectOutcome.errorsClosed => some (none, spawned)
    | SelectOutcome.errorDelivered _ => watch spawned rest
    | SelectOutcome.cancelled => some (some GoError.canceled, spawned)

/-- Externally visible actions performed by one run of `upload`
(src/unnamed/part_000:219-248), in order: the call to `waitForFileWrite`
(stability detection), a call to `waitForFileToClose`/`fileIsOpen` (the
open-handle probe — recorded so its absence from every trace is provable), the
call to `u.doUpload` (the remote upload), the call to `os.Remove`, a
`log.Printf` of a failure (message prefix and error), and the deferred release
`u.inProgress[f] = false`. -/
inductive Action where
  | stabilityCheck
  | openHandleProbe
  | remoteUpload
  | removeFile
  | logError (msg : String) (e : GoError)
  | release
  deriving DecidableEq, Repr

/-- Environment of one run of `upload` (src/unnamed/part_000:219-248): whether
`u.inProgress[f]` was already true when the task locked the mutex, the poll
trace driving `waitForFileWrite`, and the outcomes of `u.doUpload` and
`os.Remove`. -/
structure UploadWorld where
  alreadyInFlight : Bool
  polls : List PollStep
  uploadResult : Except GoError Unit
  removeResult : Except GoError Unit
  deriving DecidableEq, Repr

/-- Embeds `upload` (src/unnamed/part_000:219-248) as the trace of its actions.
If the path is already in flight the function returns at once (before the defer
is registered; the mutex state is modelled separately by `taskStep`). Otherwise
it runs `waitForFileWrite` — on error logs "failed waiting for file" and
returns (deferred release runs) — then `u.doUpload` — on error logs "failed to
upload file" and returns — then `os.Remove` — on error logs "failed to delete
file" and returns — and finally the deferred release runs. No branch invokes
the open-handle probe: `waitForFileToClose` is defined in the source but never
called. An empty tail after `stabilityCheck` means the stabilization trace
ended with the call still polling. -/
def upload (w : UploadWorld) : List Action :=
  if w.alreadyInFlight then []
  else
    Action.stabilityCheck ::
    match waitForFileWrite w.polls with
    | none => []
    | some (Except.error e) => [Action.logError "failed waiting for file" e, Action.release]
    | some (Except.ok _) =>
      Action.remoteUpload ::
      match w.uploadResult with
      | Except.error e => [Action.logError "failed to upload file" e, Action.release]
      | Except.ok _ =>
        Action.removeFile ::
        match w.removeResult with
        | Except.error e => [Action.logError "failed to delete file" e, Action.release]
        | Except.ok _ => [Action.release]

/-- Embeds the loop body of `initialUpload` (src/unnamed/part_000:76-87) over
the directory entry names: each iteration first checks `ctx.Done()` (modelled
by the constant `cancelled` state of the run context) and returns `ctx.Err()`
if set, skips ignored names, and otherwise spawns `go u.upload` for the entry
(the source passes `filepath.Join(u.inputDir, f.Name())`; the returned list
records the entry names scheduled, in order). -/
def sweepLoop (cancelled : Bool) : List String → Except GoError (List String)
  | [] => Except.ok []
  | f :: rest =>
    if cancelled then Except.error GoError.canceled
    else if shouldIgnore f then sweepLoop cancelled rest
    else (sweepLoop cancelled rest).map (fun l => f :: l)

/-- Embeds `initialUpload` (src/unnamed/part_000:70-89): list the directory
(a failure is wrapped and returned), then run the sweep loop over the entries. -/
def initialUpload (cancelled : Bool) (listing : Except GoError (List String)) :
    Except GoError (List String) :=
  match listing with
  | Except.error e => Except.error (GoError.wrapped "failed to list directory contents" e)
  | Except.ok files => sweepLoop cancelled files

/-- Environment of one call to `Run` (src/unnamed/part_000:63-68): the
cancellation state seen by the initial sweep, the `ioutil.ReadDir` result
(entry names), and the select-outcome trace driving the watch loop. -/
structure RunEnv where
  cancelled : Bool
  listing : Except GoError (List String)
  watchTrace : List SelectOutcome
  deriving DecidableEq, Repr

/-- Embeds `Run` (src/unnamed/part_000:63-68): run `initialUpload`, returning
its error if it fails, then enter `watch`. The result pairs the return value
(`none` while still inside the watch loop, otherwise `some r` with `r` the Go
error value, nil as `none`) with the names of all upload tasks scheduled so far
(sweep first, then watch, in order). -/
def Run (env : RunEnv) : Option (Option GoError) × List String :=
  match initialUpload env.cancelled env.listing with
  | Except.error e => (some (some e), [])
  | Except.ok swept =>
    match watch [] env.watchTrace with
    | none => (none, swept)
    | some (r, sp) => (some r, swept ++ sp)

/-- Embeds the flag set of src/main.go:12-17: `input_dir`, `output_dir`,
`creds_file` and `upload_on_startup`. -/
structure Flags where
  inputDir : String
  outputDir : String
  credsFile : String
  uploadOnStartup : Bool
  deriving DecidableEq, Repr

/-- Embeds `main` (src/main.go:19-35) restricted to the behaviour the claims
are about: it parses the flags, builds the uploader from `input_dir`,
`output_dir` and `creds_file`, and calls `Run`. The body of `main` — and the
whole repository — never reads `uploadOnStartup` after declaring it, so the
flag does not occur on the right-hand side. -/
def mainRun (_fl : Flags) (env : RunEnv) : Option (Option GoError) × List String :=
  Run env

/-- Per-task control point of `upload`'s claim/release protocol
(src/unnamed/part_000:220-231 and the deferred function at 227-231):
`start` — about to execute `u.mu.Lock()`;
`checking` — holding the mutex, about to test `u.inProgress[f]`;
`stuck` — returned from the `u.inProgress[f]` branch, which exits WITHOUT
unlocking the mutex (terminal);
`working` — claimed the path, released the mutex, running the task body;
`releasing` — body finished, deferred function about to execute `u.mu.Lock()`;
`clearing` — holding the mutex inside the deferred function, about to execute
`u.inProgress[f] = false`;
`done` — returned with the path released (terminal). -/
inductive Phase where
  | start
  | checking
  | stuck
  | working
  | releasing
  | clearing
  | done
  deriving DecidableEq, Repr

/-- Interleaved state of several `upload` invocations for one path `f`:
`lockHeld` is the index of the goroutine currently holding `u.mu` (if any),
`inFlight` is `u.inProgress[f]`, `phases` holds each goroutine's control point,
and `uploads` counts completed passes through the task body (each of which
invokes the remote upload once when stabilization succeeds). -/
structure SysState where
  lockHeld : Option Nat
  inFlight : Bool
  phases : List Phase
  uploads : Nat
  deriving DecidableEq, Repr

/-- Small-step semantics of the claim/release protocol of `upload`
(src/unnamed/part_000:219-248) for goroutine `i`; `none` when `i` has no
enabled step (blocked on the mutex, or already returned). Transitions follow
the source line by line: `u.mu.Lock()` requires the mutex to be free;
`u.inProgress[f]` true leads to `return` with NO `u.mu.Unlock()` on that path,
so the mutex stays held by `i`; otherwise the task sets the flag, unlocks and
runs the body (counted in `uploads`); the deferred function locks, clears the
flag and unlocks. -/
def taskStep (s : SysState) (i : Nat) : Option SysState :=
  match s.phases.get? i with
  | none => none
  | some Phase.start =>
    if s.lockHeld = none then
      some ⟨some i, s.inFlight, s.phases.set i Phase.checking, s.uploads⟩
    else none
  | some Phase.checking =>
    if s.inFlight then
      some ⟨s.lockHeld, s.inFlight, s.phases.set i Phase.stuck, s.uploads⟩
    else
      some ⟨none, true, s.phases.set i Phase.working, s.uploads⟩
  | some Phase.stuck => none
  | some Phase.working =>
    some ⟨s.lockHeld, s.inFlight, s.phases.set i Phase.releasing, s.uploads + 1⟩
  | some Phase.releasing =>
    if s.lockHeld = none then
      some ⟨some i, s.inFlight, s.phases.set i Phase.clearing, s.uploads⟩
    else none
  | some Phase.clearing =>
    some ⟨none, false, s.phases.set i Phase.done, s.uploads⟩
  | some Phase.done => none

/-- Runs a schedule (a list of goroutine indices) from a state; `none` when a
scheduled goroutine has no enabled step. -/
def runSched (s : SysState) : List Nat → Option SysState
  | [] => some s
  | i :: rest =>
    match taskStep s i with
    | none => none
    | some s2 => runSched s2 rest

/-- Initial state for `n` concurrent `upload` invocations for the same path:
mutex free, path not in flight, every goroutine about to lock. -/
def initSys (n : Nat) : SysState := ⟨none, false, List.replicate n Phase.start, 0⟩

/-- A `fileIsOpen` environment in which `lsof` resolves and the command
succeeds with empty stdout. -/
def probeSuccessEmpty : ProbeEnv := ⟨some "/usr/bin/lsof", CmdResult.success ""⟩

/-- World for a fully successful `upload` run: path not yet in flight, sizes
stabilize (12 polls at size 10), remote upload and local removal succeed. -/
def successWorld : UploadWorld :=
  ⟨false, List.replicate 12 sample10, Except.ok (), Except.ok ()⟩

/-- World for an `upload` run whose very first `os.Stat` fails. -/
def statFailWorld : UploadWorld :=
  ⟨false, [⟨Except.error (GoError.statErr "no such file"), false⟩], Except.ok (), Except.ok ()⟩

/-- State reached by two concurrent `upload` invocations for one path after
the schedule [0, 0, 1, 1, 0]: goroutine 0 claimed the path, ran the body once
and is blocked in its deferred release; goroutine 1 took the duplicate branch
and returned while still holding the mutex. -/
def deadlockState : SysState := ⟨some 1, true, [Phase.releasing, Phase.stuck], 1⟩

/-- C4 counterexample: the claim says that for the observed size sequence
[10,10,10,10,10,10,10,10,10,10,10] (11 samples), `waitForFileSizeToStabilize`
declares the file stable after exactly 10 consecutive equal samples, i.e.
within this trace. In fact the run of the embedded loop on this 11-sample
trace is still polling (`none`) and in particular has not returned success:
the code returns success only on the NEXT equal sample after the counter has
reached 10, i.e. at the 12th sample. -/
theorem c4_counterexample :
    waitForFileSizeToStabilize (List.replicate 11 sample10) = none ∧
    waitForFileSizeToStabilize (List.replicate 11 sample10) ≠ some (Except.ok ()) := by
  decide

/-- C4 amended: for a file whose observed size is constantly 10,
`waitForFileSizeToStabilize` declares the file stable at exactly the 12th
sample — after 11 consecutive equal samples — not before: on every strictly
shorter constant trace the loop is still polling, and on the 12-sample trace
it returns success. -/
theorem c4_stable_at_twelfth_sample :
    (∀ n : Fin 12, waitForFileSizeToStabilize (List.replicate n.val sample10) = none) ∧
    waitForFileSizeToStabilize (List.replicate 12 sample10) = some (Except.ok ()) := by
  decide

/-- C5 counterexample: the claim says that for the size sequence
[10,10,10,10,10,20,20,20,20,20,20,20,20,20,20,20] (16 samples) the file is
declared stable 10 samples after the growth step at sample 6, i.e. within this
trace. In fact the embedded loop is still polling at the end of this 16-sample
trace and has not returned success: a 17th sample is required. -/
theorem c5_counterexample :
    waitForFileSizeToStabilize (List.replicate 5 sample10 ++ List.replicate 11 sample20) = none ∧
    waitForFileSizeToStabilize (List.replicate 5 sample10 ++ List.replicate 11 sample20) ≠
      some (Except.ok ()) := by
  decide

/-- C5 amended: whenever a sampled size differs from the previous sample the
stability counter is reset to zero and the new size becomes the baseline
(first conjunct, for any loop state), so for the size sequence
[10,10,10,10,10,20,...] the file is declared stable only 11 samples after the
last growth step: still polling at 10 samples after the growth (16 samples
total), stable at 11 samples after it (17 samples total). -/
theorem c5_reset_on_growth (s c sz : Int) (rest : List PollStep) (h : s ≠ sz) :
    stabilizeLoop s c (⟨Except.ok sz, false⟩ :: rest) = stabilizeLoop sz 0 rest ∧
    waitForFileSizeToStabilize (List.replicate 5 sample10 ++ List.replicate 11 sample20) = none ∧
    waitForFileSizeToStabilize (List.replicate 5 sample10 ++ List.replicate 12 sample20) =
      some (Except.ok ()) := by
  refine ⟨?_, by decide, by decide⟩
  simp [stabilizeLoop, sleep, h]

/-- C5 witness: the reset equation of `c5_reset_on_growth` applied at the
growth step of the claim's sequence (previous size 10, counter 4, new size
20). -/
theorem c5_witness :
    stabilizeLoop 10 4 (⟨Except.ok 20, false⟩ :: List.replicate 11 sample20) =
      stabilizeLoop 20 0 (List.replicate 11 sample20) :=
  (c5_reset_on_growth 10 4 20 (List.replicate 11 sample20) (by decide)).1

/-- C10: the initial size baseline of `waitForFileSizeToStabilize` is zero
(`var s, c int64`), so a file whose size is 0 at the first stat already counts
that first sample as equal: a constant empty file is declared stable at the
11th sample, one poll sooner than a constant non-empty file (any size k ≠ 0),
which is declared stable only at the 12th sample because its first stat merely
establishes the baseline. -/
theorem c10_zero_baseline (k : Int) (hk : k ≠ 0) :
    waitForFileSizeToStabilize (List.replicate 11 sample0) = some (Except.ok ()) ∧
    waitForFileSizeToStabilize (List.replicate 10 sample0) = none ∧
    waitForFileSizeToStabilize (List.replicate 12 (constSample k)) = some (Except.ok ()) ∧
    waitForFileSizeToStabilize (List.replicate 11 (constSample k)) = none := by
  refine ⟨by decide, by decide, ?_, ?_⟩ <;>
    simp [waitForFileSizeToStabilize, stabilizeLoop, sleep, constSample,
      List.replicate, Ne.symm hk]

/-- C10 witness: `c10_zero_baseline` at the concrete non-empty size 10. -/
theorem c10_witness :
    waitForFileSizeToStabilize (List.replicate 12 (constSample 10)) = some (Except.ok ()) ∧
    waitForFileSizeToStabilize (List.replicate 11 (constSample 10)) = none :=
  ⟨(c10_zero_baseline 10 (by decide)).2.2.1, (c10_zero_baseline 10 (by decide)).2.2.2⟩

/-- No run of `upload` ever invokes the open-handle probe: the source's
`upload` calls `waitForFileWrite`, which delegates only to
`waitForFileSizeToStabilize`; `waitForFileToClose` and `fileIsOpen` are
defined but never called from the upload path. -/
theorem upload_no_probe (w : UploadWorld) : Action.openHandleProbe ∉ upload w := by
  unfold upload
  cases hw : w.alreadyInFlight with
  | true => simp
  | false =>
    simp only [Bool.false_eq_true, if_false]
    cases hr : waitForFileWrite w.polls with
    | none => simp
    | some r =>
      cases r with
      | error e => simp
      | ok u =>
        cases hu : w.uploadResult with
        | error e => simp
        | ok v =>
          cases hm : w.removeResult with
          | error e => simp
          | ok z => simp

/-- C1 counterexample: the claim says every claiming upload task runs the
file-stability detector and then the open-handle probe before any upload. On
the concrete world `successWorld` the task's action trace goes straight from
the stability check to the remote upload: the remote upload is attempted, yet
no open-handle probe action occurs anywhere in the trace. -/
theorem c1_counterexample :
    upload successWorld =
      [Action.stabilityCheck, Action.remoteUpload, Action.removeFile, Action.release] ∧
    Action.remoteUpload ∈ upload successWorld ∧
    Action.openHandleProbe ∉ upload successWorld := by
  decide

/-- C1 amended: for every path whose upload task successfully claims it, the
task runs only the file-stability detector before any upload (the open-handle
probe is never invoked on any world); if the detector returns an error the
task aborts: the error is logged, the path is released, and neither the remote
upload nor the local file removal is attempted (the file is left in place). -/
theorem c1_stability_only_then_abort (w : UploadWorld) (e : GoError)
    (h1 : w.alreadyInFlight = false)
    (h2 : waitForFileWrite w.polls = some (Except.error e)) :
    upload w = [Action.stabilityCheck, Action.logError "failed waiting for file" e,
      Action.release] ∧
    Action.remoteUpload ∉ upload w ∧
    Action.removeFile ∉ upload w ∧
    ∀ w2 : UploadWorld, Action.openHandleProbe ∉ upload w2 := by
  have htrace : upload w = [Action.stabilityCheck,
      Action.logError "failed waiting for file" e, Action.release] := by
    simp [upload, h1, h2]
  refine ⟨htrace, ?_, ?_, upload_no_probe⟩ <;> simp [htrace]

/-- C1 witness: `c1_stability_only_then_abort` at the world whose first stat
fails; the aborting trace is logged-then-released with no upload action. -/
theorem c1_witness :
    upload statFailWorld = [Action.stabilityCheck,
      Action.logError "failed waiting for file" (GoError.statErr "no such file"),
      Action.release] :=
  (c1_stability_only_then_abort statFailWorld (GoError.statErr "no such file")
    rfl (by decide)).1

/-- C2: the claim says the InFlightSet lock is released on both branches of
the claim step, in particular that a task finding the path already claimed
aborts silently with the lock released. In the embedded interleaving
semantics, after the schedule [0, 0, 1, 1] (goroutine 0 claims the path and
starts working; goroutine 1 locks the mutex and hits the duplicate branch)
goroutine 1 has returned (`Phase.stuck`, no enabled step) while `lockHeld`
is still `some 1`: the duplicate branch returns without `u.mu.Unlock()`, so
the mutex is never released. -/
theorem c2_duplicate_branch_keeps_lock :
    runSched (initSys 2) [0, 0, 1, 1] =
      some ⟨some 1, true, [Phase.working, Phase.stuck], 0⟩ ∧
    taskStep ⟨some 1, true, [Phase.working, Phase.stuck], 0⟩ 1 = none := by
  decide

/-- C6: the claim says the path stays marked in-flight from claim until a
release that happens on every exit. With two concurrent duplicate invocations,
after the schedule [0, 0, 1, 1, 0] the system reaches `deadlockState`: the
remote upload ran exactly once (the atomic check-and-set admitted only
goroutine 0, `uploads = 1`), but goroutine 1 returned holding the mutex, so
goroutine 0's deferred release blocks forever — no goroutine has any enabled
step and `inFlight` remains true, i.e. the path is never released. -/
theorem c6_release_deadlocks :
    runSched (initSys 2) [0, 0, 1, 1, 0] = some deadlockState ∧
    deadlockState.uploads = 1 ∧
    deadlockState.inFlight = true ∧
    ∀ i : Nat, taskStep deadlockState i = none := by
  refine ⟨by decide, rfl, rfl, fun i => ?_⟩
  match i with
  | 0 => decide
  | 1 => decide
  | n + 2 => rfl

/-- Every value the `watch` loop can return is either nil or `ctx.Err()`: the
loop never returns any other error, whatever the trace. -/
theorem watch_exit_vals :
    ∀ (t : List SelectOutcome) (sp0 sps : List String) (r : Option GoError),
      watch sp0 t = some (r, sps) → r = none ∨ r = some GoError.canceled := by
  intro t
  induction t with
  | nil => intro sp0 sps r h; simp [watch] at h
  | cons o rest ih =>
    intro sp0 sps r h
    cases o with
    | eventsClosed =>
      simp [watch] at h
      exact Or.inl h.1.symm
    | event name isWrite onDisk inFlight =>
      simp only [watch] at h
      split at h
      · exact ih _ _ _ h
      · split at h
        · exact ih _ _ _ h
        · exact ih _ _ _ h
    | errorsClosed =>
      simp [watch] at h
      exact Or.inl h.1.symm
    | errorDelivered e =>
      simp only [watch] at h
      exact ih _ _ _ h
    | cancelled =>
      simp [watch] at h
      exact Or.inr h.1.symm

/-- C3 counterexample: the claim says `watch` returns the error reported by
the source when the source's error channel closes with one. On the trace
where the source delivers the error "boom" and the error channel then closes,
the embedded `watch` loop returns nil — not the reported error: the delivered
error is only logged, and the `return err` on the closed-channel branch
returns the channel's zero value. -/
theorem c3_counterexample :
    watch [] [SelectOutcome.errorDelivered (GoError.otherErr "boom"),
      SelectOutcome.errorsClosed] = some (none, []) ∧
    (some ((none : Option GoError), ([] : List String))) ≠
      some (some (GoError.otherErr "boom"), ([] : List String)) := by
  decide

/-- C3 amended: `watch` returns nil when the event channel is closed; when the
error channel closes it also returns nil (the `return err` there returns the
closed channel's zero value, not any previously reported error); an error
actually delivered on the error channel is logged and the loop continues; it
returns the cancellation error when the run is cancelled; and the loop has no
other exit path — every returned value is nil or the cancellation error. -/
theorem c3_exit_paths (sp : List String) (rest : List SelectOutcome) (e : GoError) :
    watch sp [] = none ∧
    watch sp (SelectOutcome.eventsClosed :: rest) = some (none, sp) ∧
    watch sp (SelectOutcome.errorsClosed :: rest) = some (none, sp) ∧
    watch sp (SelectOutcome.cancelled :: rest) = some (some GoError.canceled, sp) ∧
    watch sp (SelectOutcome.errorDelivered e :: rest) = watch sp rest ∧
    (∀ (t : List SelectOutcome) (sp0 sps : List String) (r : Option GoError),
      watch sp0 t = some (r, sps) → r = none ∨ r = some GoError.canceled) :=
  ⟨rfl, rfl, rfl, rfl, rfl, watch_exit_vals⟩

/-- C3 witness: `c3_exit_paths` evaluated on concrete traces — a closed event
channel returns nil and a cancelled run returns the cancellation error, the
latter also discharging the exit-characterization hypothesis concretely. -/
theorem c3_witness :
    watch [] [SelectOutcome.eventsClosed] = some (none, ([] : List String)) ∧
    ((some GoError.canceled : Option GoError) = none ∨
      (some GoError.canceled : Option GoError) = some GoError.canceled) :=
  ⟨(c3_exit_paths [] [] GoError.canceled).2.1,
    (c3_exit_paths [] [] GoError.canceled).2.2.2.2.2 [SelectOutcome.cancelled] [] []
      (some GoError.canceled) (c3_exit_paths [] [] GoError.canceled).2.2.2.1⟩

/-- C7 counterexample: the claim says `fileIsOpen` returns (true, nil) exactly
when the external facility succeeds with non-empty output. In the environment
where `lsof` resolves and the command succeeds with EMPTY stdout, the embedded
`fileIsOpen` still returns (true, nil): the code discards the output and
treats any successful invocation as "open", so the "exactly when ... non-empty
output" characterization is false. -/
theorem c7_counterexample :
    fileIsOpen probeSuccessEmpty = Except.ok true ∧
    ¬ ∃ out, probeSuccessEmpty.run = CmdResult.success out ∧ out ≠ "" := by
  refine ⟨rfl, ?_⟩
  rintro ⟨out, hrun, hne⟩
  simp [probeSuccessEmpty] at hrun
  exact hne hrun.symm

/-- C7 amended: `fileIsOpen` returns (true, nil) exactly when `lsof` resolves
and the command invocation succeeds, regardless of its output content; it
returns (false, nil) exactly when `lsof` resolves and the command fails as an
exit error with empty stderr; a missing facility yields the lookup error, an
exit error with non-empty stderr and any non-exit failure are surfaced as
errors — a probe infrastructure failure is never interpreted as the file being
closed. -/
theorem c7_open_result_characterization (env : ProbeEnv) :
    (fileIsOpen env = Except.ok true ↔
      env.lookPath ≠ none ∧ ∃ out, env.run = CmdResult.success out) ∧
    (fileIsOpen env = Except.ok false ↔
      env.lookPath ≠ none ∧ ∃ stdout, env.run = CmdResult.exit stdout "") ∧
    (env.lookPath = none → fileIsOpen env = Except.error GoError.lookPathErr) ∧
    (∀ stdout stderr, env.lookPath ≠ none → env.run = CmdResult.exit stdout stderr →
      stderr ≠ "" → fileIsOpen env = Except.error (GoError.exitErr stderr)) ∧
    (∀ msg, env.lookPath ≠ none → env.run = CmdResult.otherFailure msg →
      fileIsOpen env = Except.error (GoError.otherErr msg)) := by
  obtain ⟨lp, run⟩ := env
  cases lp with
  | none => cases run <;> simp [fileIsOpen]
  | some p =>
    cases run with
    | success out => simp [fileIsOpen]
    | exit o s =>
      by_cases hs : s = ""
      · subst hs
        simp [fileIsOpen]
      · simp [fileIsOpen, hs]
    | otherFailure m => simp [fileIsOpen]

/-- C7 witness: `c7_open_result_characterization` applied to the environment
where `lsof` exits non-zero with empty stderr — the file is reported not open
with no error. -/
theorem c7_witness :
    fileIsOpen ⟨some "/usr/bin/lsof", CmdResult.exit "" ""⟩ = Except.ok false :=
  (c7_open_result_characterization ⟨some "/usr/bin/lsof", CmdResult.exit "" ""⟩).2.1.mpr
    (by simp)

/-- C8: every polling loop observes the cancellation signal at each poll
boundary. The `sleep` primitive races the interval timer against `ctx.Done()`
and returns the cancellation error when the signal is set; a stability-polling
iteration that reaches its sleep with the signal set returns the cancellation
error at that boundary, consuming no further polls; an open-handle-polling
iteration likewise; and the dispatcher's select returns the cancellation error
when `ctx.Done()` fires while it waits for the next event. -/
theorem c8_cancellation_at_poll_boundaries (s c sz : Int) (rest : List PollStep)
    (cstep : ClosePollStep) (crest : List ClosePollStep)
    (sp : List String) (t : List SelectOutcome)
    (h1 : ¬(s = sz ∧ 10 ≤ c))
    (h2 : fileIsOpen cstep.probe = Except.ok true)
    (h3 : cstep.cancelledAtSleep = true) :
    sleep true = Except.error GoError.canceled ∧
    sleep false = Except.ok () ∧
    stabilizeLoop s c (⟨Except.ok sz, true⟩ :: rest) = some (Except.error GoError.canceled) ∧
    waitForFileToClose (cstep :: crest) = some (Except.error GoError.canceled) ∧
    watch sp (SelectOutcome.cancelled :: t) = some (some GoError.canceled, sp) := by
  refine ⟨rfl, rfl, ?_, ?_, rfl⟩
  · by_cases hs : s = sz
    · have hc : c < 10 := lt_of_not_ge fun h10 => h1 ⟨hs, h10⟩
      simp [stabilizeLoop, sleep, hs, hc]
    · simp [stabilizeLoop, sleep, hs]
  · simp [waitForFileToClose, h2, h3, sleep]

/-- C8 witness: `c8_cancellation_at_poll_boundaries` at a concrete mid-write
poll state (baseline 0, counter 0, observed size 5) and a concrete open-file
probe, both with the cancellation signal set at the sleep. -/
theorem c8_witness :
    stabilizeLoop 0 0 [⟨Except.ok 5, true⟩] = some (Except.error GoError.canceled) ∧
    waitForFileToClose [⟨⟨some "/usr/bin/lsof", CmdResult.success "p123"⟩, true⟩] =
      some (Except.error GoError.canceled) :=
  ⟨(c8_cancellation_at_poll_boundaries 0 0 5 [] ⟨⟨some "/usr/bin/lsof",
      CmdResult.success "p123"⟩, true⟩ [] [] [] (by decide) rfl rfl).2.2.1,
   (c8_cancellation_at_poll_boundaries 0 0 5 [] ⟨⟨some "/usr/bin/lsof",
      CmdResult.success "p123"⟩, true⟩ [] [] [] (by decide) rfl rfl).2.2.2.1⟩

/-- The sweep loop with the run not cancelled schedules an upload task for
exactly the non-ignored directory entries, in order. -/
theorem sweepLoop_not_cancelled (files : List String) :
    sweepLoop false files = Except.ok (files.filter (fun f => !shouldIgnore f)) := by
  induction files with
  | nil => rfl
  | cons f rest ih =>
    cases h : shouldIgnore f <;> simp [sweepLoop, h, ih, List.filter_cons, Except.map]

/-- C9: the `upload_on_startup` flag is declared in src/main.go but never
consulted: the behaviour of the embedded `main` is unchanged under any value
of the flag, and `Run` unconditionally performs the initial directory sweep —
scheduling an upload task for every non-ignored entry — before entering the
watch loop, regardless of the flag. -/
theorem c9_upload_on_startup_unused (fl : Flags) (b : Bool) (env : RunEnv)
    (files : List String) :
    mainRun ⟨fl.inputDir, fl.outputDir, fl.credsFile, b⟩ env = mainRun fl env ∧
    Run ⟨false, Except.ok files, []⟩ =
      (none, files.filter (fun f => !shouldIgnore f)) ∧
    mainRun fl ⟨false, Except.ok files, []⟩ =
      (none, files.filter (fun f => !shouldIgnore f)) := by
  refine ⟨rfl, ?_, ?_⟩ <;>
    simp [mainRun, Run, initialUpload, sweepLoop_not_cancelled, watch]

end GdriveSync
